import Mathlib

/-!
Verification of the ember-data-sails addon.

The definitions below are a shallow embedding of the addon's JavaScript
source:

* `addon/adapters/sails-base.js` (the `SailsBase` adapter): CSRF token
  fetching and caching (`fetchCSRFToken`, `checkCSRF`, `isErrorObject`,
  `ajaxError`, `formatError`, and the success/error branches of `ajax`);
* `addon/adapters/sails-socket.js` (the `SailsSocketAdapter`): debounced
  subscription batching (`_scheduleSubscribe`, `_subscribeScheduled`) and
  inbound record-message handling (`_listenToSocket`,
  `_handleSocketRecordCreated/Updated/Deleted`);
* `addon/services/sails-socket.js` (the `SailsSocketService`): connection
  lifecycle (`_handleSocketReady`, `_handleSocketConnect`,
  `_handleSocketDisconnect`, `_reconnect`, `listenFor`, `_bindListeners`,
  `_unbindListeners`) and the status check in `request`.

Asynchronous behaviour (promises settling, socket events firing, the
debounce timer elapsing) is embedded as explicit state-transition
functions on record types holding the same mutable fields as the
JavaScript objects, so each claim becomes a statement about runs of the
corresponding transition system.
-/

namespace EmberDataSails

/-- JS truthiness of a nullable string property such as `this.csrfToken` or
`record.id`: `null`/`undefined` and the empty string are falsy, any other
string is truthy. This is the test performed by `!this.csrfToken` in
`fetchCSRFToken` / `checkCSRF` and by `!record.id` in
`_handleSocketRecordCreated`. -/
def strTruthy : Option String → Bool
  | none => false
  | some s => s ≠ ""

/-! ## CSRF token fetching (`SailsBase` in `addon/adapters/sails-base.js`)

`fetchCSRFToken(force)` memoises the in-flight fetch in
`_csrfTokenLoadingPromise` and the fetched token in `csrfToken`. Promises
are represented by numeric ids allocated from a counter; the network
request performed by `_fetchCSRFToken` is counted in `fetchCount`; the
settlement each caller of the shared promise eventually observes is
recorded in `settled`. -/

/-- How a settled promise delivers its value to code awaiting it. The
handler chain built in `fetchCSRFToken` ends in a `.then` handler that
`return`s the token and a `.catch` handler that `return`s (not re-throws)
the error, so the shared promise can fulfil with a token or fulfil with an
error value; the `rejected` outcome is what the promise library would
produce if a handler re-threw or returned a rejected promise, kept in the
type so the two kinds of settlement can be distinguished. -/
inductive PromiseOutcome
  | fulfilledToken (t : String)
  | fulfilledError (e : String)
  | rejected (e : String)
  deriving DecidableEq, Repr

/-- The mutable state of a `SailsBase` adapter relevant to CSRF fetching,
plus instrumentation: `fetchCount` counts invocations of the network
request `_fetchCSRFToken`, `nextPromiseId` allocates promise identities,
and `settled` logs how each promise settles for its awaiters. -/
structure AdapterCSRFState where
  useCSRF : Bool
  csrfToken : Option String
  csrfTokenLoadingPromise : Option Nat
  nextPromiseId : Nat
  fetchCount : Nat
  settled : List (Nat × PromiseOutcome)
  deriving DecidableEq, Repr

/-- What a call to `fetchCSRFToken` hands back to its caller: the shared
in-flight promise (by id), or the immediately resolved `RSVP.resolve(null)`
of the no-op branch. -/
inductive FetchReturn
  | pending (id : Nat)
  | resolvedNull
  deriving DecidableEq, Repr

/-- `SailsBase.fetchCSRFToken(force)`: when `this.useCSRF && (force ||
!this.csrfToken)`, reuse the promise memoised in
`_csrfTokenLoadingPromise` if one exists; otherwise clear `csrfToken`,
start the network request (`_fetchCSRFToken`, counted), and memoise the
new promise. In every other case return `RSVP.resolve(null)`. -/
def fetchCSRFToken (s : AdapterCSRFState) (force : Bool) :
    AdapterCSRFState × FetchReturn :=
  if s.useCSRF && (force || !(strTruthy s.csrfToken)) then
    match s.csrfTokenLoadingPromise with
    | some p => (s, .pending p)
    | none =>
        let p := s.nextPromiseId
        ({ s with csrfToken := none
                , csrfTokenLoadingPromise := some p
                , nextPromiseId := p + 1
                , fetchCount := s.fetchCount + 1 }, .pending p)
  else (s, .resolvedNull)

/-- The error string rejected by the `.then` handler of `fetchCSRFToken`
when the server answers with an empty token. -/
def emptyTokenError : String := "Got an empty CSRF token from the server!"

/-- The handler chain of `fetchCSRFToken` running when the underlying
`_fetchCSRFToken` request succeeds with `token`: a truthy token is stored
in `csrfToken` and fulfils the shared promise; a falsy (empty) token is
turned into a rejection by the `.then` handler, which the `.catch` handler
then catches and `return`s, so the shared promise fulfils with the error
value and `csrfToken` stays cleared. The `.finally` handler resets
`_csrfTokenLoadingPromise` in both cases. -/
def resolveCSRFFetch (s : AdapterCSRFState) (token : String) :
    AdapterCSRFState :=
  match s.csrfTokenLoadingPromise with
  | none => s
  | some p =>
      if token ≠ "" then
        { s with csrfToken := some token
               , csrfTokenLoadingPromise := none
               , settled := s.settled ++ [(p, .fulfilledToken token)] }
      else
        { s with csrfTokenLoadingPromise := none
               , settled := s.settled ++ [(p, .fulfilledError emptyTokenError)] }

/-- The handler chain of `fetchCSRFToken` running when the underlying
`_fetchCSRFToken` request fails with `err`: the `.catch` handler logs and
`return error`s, so the shared promise FULFILS with the error value (it
does not stay rejected); `csrfToken` is left as it was (it had been
cleared when the fetch started) and the `.finally` handler resets
`_csrfTokenLoadingPromise`. -/
def rejectCSRFFetch (s : AdapterCSRFState) (err : String) :
    AdapterCSRFState :=
  match s.csrfTokenLoadingPromise with
  | none => s
  | some p =>
      { s with csrfTokenLoadingPromise := none
             , settled := s.settled ++ [(p, .fulfilledError err)] }

/-- A sequence of `fetchCSRFToken` calls (with the given `force` flags) run
back to back with no promise settlement in between, returning the final
state and each call's return value. -/
def fetchMany (s : AdapterCSRFState) (forces : List Bool) :
    AdapterCSRFState × List FetchReturn :=
  match forces with
  | [] => (s, [])
  | f :: fs =>
      let r := fetchCSRFToken s f
      let rest := fetchMany r.1 fs
      (rest.1, r.2 :: rest.2)

theorem fetchCSRFToken_inflight (s : AdapterCSRFState) (f : Bool) (p : Nat)
    (hu : s.useCSRF = true) (ht : s.csrfToken = none)
    (hp : s.csrfTokenLoadingPromise = some p) :
    fetchCSRFToken s f = (s, .pending p) := by
  simp [fetchCSRFToken, hu, ht, hp, strTruthy]

theorem fetchMany_inflight (forces : List Bool) (s : AdapterCSRFState) (p : Nat)
    (hu : s.useCSRF = true) (ht : s.csrfToken = none)
    (hp : s.csrfTokenLoadingPromise = some p) :
    fetchMany s forces = (s, forces.map fun _ => .pending p) := by
  induction forces with
  | nil => simp [fetchMany]
  | cons f fs ih =>
      simp [fetchMany, fetchCSRFToken_inflight s f p hu ht hp, ih]

/-- C1: with `useCSRF` true, no cached token and no fetch in flight, the
first `fetchCSRFToken` call starts exactly one network request and every
further call made while that fetch is in flight (whatever its `force`
flag) returns the very same pending promise without issuing another
request. -/
theorem C1_fetchCSRFToken_single_flight (s0 : AdapterCSRFState) (f0 : Bool)
    (forces : List Bool)
    (hu : s0.useCSRF = true) (ht : strTruthy s0.csrfToken = false)
    (hp : s0.csrfTokenLoadingPromise = none) :
    (fetchCSRFToken s0 f0).2 = .pending s0.nextPromiseId ∧
    (fetchMany (fetchCSRFToken s0 f0).1 forces).2 =
      (forces.map fun _ => .pending s0.nextPromiseId) ∧
    (fetchMany (fetchCSRFToken s0 f0).1 forces).1.fetchCount =
      s0.fetchCount + 1 := by
  have hg : (s0.useCSRF && (f0 || !(strTruthy s0.csrfToken))) = true := by
    simp [hu, ht]
  have hstep : fetchCSRFToken s0 f0 =
      ({ s0 with
          csrfToken := none,
          csrfTokenLoadingPromise := some s0.nextPromiseId,
          nextPromiseId := s0.nextPromiseId + 1,
          fetchCount := s0.fetchCount + 1 },
        .pending s0.nextPromiseId) := by
    simp [fetchCSRFToken, hg, hp]
  rw [hstep]
  have hrest := fetchMany_inflight forces
      { s0 with
          csrfToken := none,
          csrfTokenLoadingPromise := some s0.nextPromiseId,
          nextPromiseId := s0.nextPromiseId + 1,
          fetchCount := s0.fetchCount + 1 }
      s0.nextPromiseId (by simp [hu]) (by simp) (by simp)
  rw [hrest]
  exact ⟨rfl, rfl, rfl⟩

theorem C1_witness :
    (true : Bool) = true ∧ strTruthy none = false ∧
      (none : Option Nat) = none ∧
    ((fetchCSRFToken ⟨true, none, none, 0, 0, []⟩ false).2 = .pending 0 ∧
     (fetchMany (fetchCSRFToken ⟨true, none, none, 0, 0, []⟩ false).1
        [false, true, false]).2 = ([false, true, false].map fun _ => .pending 0) ∧
     (fetchMany (fetchCSRFToken ⟨true, none, none, 0, 0, []⟩ false).1
        [false, true, false]).1.fetchCount = 0 + 1) :=
  ⟨rfl, rfl, rfl,
    C1_fetchCSRFToken_single_flight ⟨true, none, none, 0, 0, []⟩ false
      [false, true, false] rfl rfl rfl⟩

/-- C4: once a fetch in flight settles successfully with a (truthy) token,
the token is cached in `csrfToken`; afterwards any number of
`fetchCSRFToken` calls without the `force` flag return `RSVP.resolve(null)`
and leave the state — in particular the network-request count — untouched,
while a call with `force` (invalidating the cache) does start a new
network request. -/
theorem C4_fetchCSRFToken_cached (s : AdapterCSRFState) (t : String) (p : Nat)
    (n : Nat)
    (hu : s.useCSRF = true) (hp : s.csrfTokenLoadingPromise = some p)
    (htok : t ≠ "") :
    (resolveCSRFFetch s t).csrfToken = some t ∧
    fetchMany (resolveCSRFFetch s t) (List.replicate n false) =
      (resolveCSRFFetch s t, List.replicate n .resolvedNull) ∧
    (fetchCSRFToken (resolveCSRFFetch s t) true).1.fetchCount =
      s.fetchCount + 1 := by
  have hres : resolveCSRFFetch s t =
      { s with
          csrfToken := some t,
          csrfTokenLoadingPromise := none,
          settled := s.settled ++ [(p, .fulfilledToken t)] } := by
    simp [resolveCSRFFetch, hp, htok]
  have hcached : ∀ m, fetchMany (resolveCSRFFetch s t) (List.replicate m false) =
      (resolveCSRFFetch s t, List.replicate m .resolvedNull) := by
    intro m
    induction m with
    | zero => simp [fetchMany]
    | succ k ih =>
        have hcall : fetchCSRFToken (resolveCSRFFetch s t) false =
            (resolveCSRFFetch s t, .resolvedNull) := by
          simp [fetchCSRFToken, hres, hu, strTruthy, htok]
        simp [List.replicate_succ, fetchMany, hcall, ih]
  refine ⟨by simp [hres], hcached n, ?_⟩
  simp [fetchCSRFToken, hres, hu, strTruthy]

theorem C4_witness :
    ((true : Bool) = true ∧ (some 7 : Option Nat) = some 7 ∧
      "tok" ≠ "") ∧
    ((resolveCSRFFetch ⟨true, none, some 7, 8, 1, []⟩ "tok").csrfToken =
        some "tok" ∧
     fetchMany (resolveCSRFFetch ⟨true, none, some 7, 8, 1, []⟩ "tok")
        (List.replicate 3 false) =
      (resolveCSRFFetch ⟨true, none, some 7, 8, 1, []⟩ "tok",
        List.replicate 3 .resolvedNull) ∧
     (fetchCSRFToken (resolveCSRFFetch ⟨true, none, some 7, 8, 1, []⟩ "tok")
        true).1.fetchCount = 1 + 1) :=
  ⟨⟨rfl, rfl, by decide⟩,
    C4_fetchCSRFToken_cached ⟨true, none, some 7, 8, 1, []⟩ "tok" 7 3
      rfl rfl (by decide)⟩

/-- C3 counterexample: when the network request behind the in-flight fetch
fails, the `.catch` handler of `fetchCSRFToken` `return`s the error, so the
shared promise the waiters hold FULFILS with the error value — it is not a
rejected promise, contradicting the claim that the failure reaches the
waiters as a rejection. Concretely, starting from a fresh adapter with
`useCSRF` and failing the fetch with "boom", the promise settles as
`fulfilledError "boom"`, not `rejected "boom"`. -/
theorem C3_counterexample :
    (rejectCSRFFetch (fetchCSRFToken ⟨true, none, none, 0, 0, []⟩ false).1
        "boom").settled = [(0, .fulfilledError "boom")] ∧
    ¬ (rejectCSRFFetch (fetchCSRFToken ⟨true, none, none, 0, 0, []⟩ false).1
        "boom").settled = [(0, .rejected "boom")] := by
  constructor
  · rfl
  · decide

/-- C3 amended: when the underlying `_fetchCSRFToken` request fails, the
cached `csrfToken` remains cleared and the memoised loading promise is
reset, so the next `fetchCSRFToken` call performs a fresh network fetch;
the failure is propagated to every waiter on the in-flight promise as the
error value the shared promise settles with — but the promise fulfils with
that error value (the `.catch` handler `return`s it) rather than
rejecting. -/
theorem C3_failed_fetch_clears_cache (s0 : AdapterCSRFState) (f : Bool)
    (e : String)
    (hu : s0.useCSRF = true) (ht : strTruthy s0.csrfToken = false)
    (hp : s0.csrfTokenLoadingPromise = none) :
    (rejectCSRFFetch (fetchCSRFToken s0 f).1 e).csrfToken = none ∧
    (rejectCSRFFetch (fetchCSRFToken s0 f).1 e).csrfTokenLoadingPromise
      = none ∧
    (rejectCSRFFetch (fetchCSRFToken s0 f).1 e).settled =
      s0.settled ++ [(s0.nextPromiseId, .fulfilledError e)] ∧
    (fetchCSRFToken (rejectCSRFFetch (fetchCSRFToken s0 f).1 e) false).2 =
      .pending (s0.nextPromiseId + 1) ∧
    (fetchCSRFToken (rejectCSRFFetch (fetchCSRFToken s0 f).1 e)
        false).1.fetchCount = s0.fetchCount + 2 := by
  have hg : (s0.useCSRF && (f || !(strTruthy s0.csrfToken))) = true := by
    simp [hu, ht]
  have hstep : (fetchCSRFToken s0 f).1 =
      { s0 with
          csrfToken := none,
          csrfTokenLoadingPromise := some s0.nextPromiseId,
          nextPromiseId := s0.nextPromiseId + 1,
          fetchCount := s0.fetchCount + 1 } := by
    simp [fetchCSRFToken, hg, hp]
  rw [hstep]
  have hrej : rejectCSRFFetch
      { s0 with
          csrfToken := none,
          csrfTokenLoadingPromise := some s0.nextPromiseId,
          nextPromiseId := s0.nextPromiseId + 1,
          fetchCount := s0.fetchCount + 1 } e =
      { s0 with
          csrfToken := none,
          csrfTokenLoadingPromise := none,
          nextPromiseId := s0.nextPromiseId + 1,
          fetchCount := s0.fetchCount + 1,
          settled := s0.settled ++ [(s0.nextPromiseId, .fulfilledError e)] } := by
    simp [rejectCSRFFetch]
  rw [hrej]
  refine ⟨rfl, rfl, rfl, ?_, ?_⟩ <;>
    simp [fetchCSRFToken, hu, strTruthy]

theorem C3_amended_witness :
    ((true : Bool) = true ∧ strTruthy none = false ∧
      (none : Option Nat) = none) ∧
    ((rejectCSRFFetch (fetchCSRFToken ⟨true, none, none, 0, 0, []⟩ true).1
        "oops").csrfToken = none ∧
     (rejectCSRFFetch (fetchCSRFToken ⟨true, none, none, 0, 0, []⟩ true).1
        "oops").csrfTokenLoadingPromise = none ∧
     (rejectCSRFFetch (fetchCSRFToken ⟨true, none, none, 0, 0, []⟩ true).1
        "oops").settled = [] ++ [(0, .fulfilledError "oops")] ∧
     (fetchCSRFToken (rejectCSRFFetch
        (fetchCSRFToken ⟨true, none, none, 0, 0, []⟩ true).1 "oops") false).2 =
        .pending (0 + 1) ∧
     (fetchCSRFToken (rejectCSRFFetch
        (fetchCSRFToken ⟨true, none, none, 0, 0, []⟩ true).1 "oops")
        false).1.fetchCount = 0 + 2) :=
  ⟨⟨rfl, rfl, rfl⟩,
    C3_failed_fetch_clears_cache ⟨true, none, none, 0, 0, []⟩ true "oops"
      rfl rfl rfl⟩

/-! ## `SailsBase.checkCSRF` -/

/-- A data object handed to `checkCSRF`: its `_csrf` field (absent on a
fresh request payload) and all its other fields, which `checkCSRF` never
touches. -/
structure CsrfData where
  csrf : Option String
  rest : List (String × String)
  deriving DecidableEq, Repr

/-- `SailsBase.checkCSRF(data)`: with `useCSRF` off the data is returned
untouched; otherwise a falsy `csrfToken` throws
"CSRF Token not fetched yet.", and a truthy one is written into the
object's `_csrf` field before the same object is returned. -/
def checkCSRF (useCSRF : Bool) (csrfToken : Option String) (data : CsrfData) :
    Except String CsrfData :=
  if !useCSRF then .ok data
  else if !(strTruthy csrfToken) then .error "CSRF Token not fetched yet."
  else .ok { data with csrf := csrfToken }

/-- C8: `checkCSRF` throws exactly when `useCSRF` is true and no (truthy)
token is cached; with `useCSRF` false it returns the given object
untouched; with `useCSRF` true and a cached token it returns the given
object with only its `_csrf` field set to the cached token. -/
theorem C8_checkCSRF_spec (u : Bool) (tok : Option String) (d : CsrfData) :
    (checkCSRF u tok d = .error "CSRF Token not fetched yet." ↔
      (u = true ∧ strTruthy tok = false)) ∧
    (u = false → checkCSRF u tok d = .ok d) ∧
    (∀ t, u = true → tok = some t → t ≠ "" →
      checkCSRF u tok d = .ok { csrf := some t, rest := d.rest }) := by
  refine ⟨?_, ?_, ?_⟩
  · cases u with
    | false => simp [checkCSRF]
    | true =>
        cases ht : strTruthy tok with
        | true => simp [checkCSRF, ht]
        | false => simp [checkCSRF, ht]
  · intro hu
    simp [checkCSRF, hu]
  · intro t hu htok ht
    subst htok
    simp [checkCSRF, hu, strTruthy, ht]

theorem C8_witness :
    checkCSRF true (some "tok") ⟨none, [("k", "v")]⟩ =
      .ok ⟨some "tok", [("k", "v")]⟩ ∧
    checkCSRF false none ⟨none, [("k", "v")]⟩ = .ok ⟨none, [("k", "v")]⟩ ∧
    checkCSRF true none ⟨none, []⟩ =
      .error "CSRF Token not fetched yet." :=
  ⟨(C8_checkCSRF_spec true (some "tok") ⟨none, [("k", "v")]⟩).2.2 "tok"
      rfl rfl (by decide),
   (C8_checkCSRF_spec false none ⟨none, [("k", "v")]⟩).2.1 rfl,
   (C8_checkCSRF_spec true none ⟨none, []⟩).1.mpr ⟨rfl, rfl⟩⟩

/-! ## `SailsSocketService.request` response check -/

/-- `Math.round(statusCode / 100)` for a nonnegative integer status code:
JS `Math.round x` is `floor (x + 1/2)`, and
`floor (c / 100 + 1/2) = (c + 50) / 100` in integer division. -/
def mathRoundDiv100 (statusCode : Nat) : Nat := (statusCode + 50) / 100

/-- The settlement test in the response callback of
`SailsSocketService.request`: the promise rejects when `!jwr ||
Math.round(jwr.statusCode / 100) !== 2`, and resolves with the response
data otherwise. `jwr` is modelled by its status code, absent when no JSON
WebSocket response object exists. -/
def requestResolves (jwr : Option Nat) : Bool :=
  match jwr with
  | none => false
  | some statusCode => mathRoundDiv100 statusCode == 2

/-- C9: the socket request promise resolves exactly when a jwr exists and
`Math.round(jwr.statusCode / 100)` is 2, i.e. exactly for status codes 150
through 249; codes 250 through 299 (and a missing jwr) reject. -/
theorem C9_request_status_window (jwr : Option Nat) :
    requestResolves jwr = true ↔
      ∃ statusCode, jwr = some statusCode ∧
        150 ≤ statusCode ∧ statusCode ≤ 249 := by
  cases jwr with
  | none => simp [requestResolves]
  | some c =>
      simp only [requestResolves, mathRoundDiv100, beq_iff_eq,
        Option.some.injEq]
      constructor
      · intro h
        refine ⟨c, rfl, by omega, by omega⟩
      · rintro ⟨c', hc', h1, h2⟩
        subst hc'
        omega

/-! ## Error wrapping (`ajaxError`, `isErrorObject` and the success
handler of `ajax` in `SailsBase`) -/

/-- One entry of an `invalidAttributes[property]` array: an error object
whose `message` field `formatError` extracts. -/
structure AttrError where
  message : String
  deriving DecidableEq, Repr

/-- A JSON object payload of a Sails response, as consumed by
`isErrorObject`, `formatError`, `ajaxError` and the success handler of
`ajax`: the truthiness of its `errors`, `error`, `model`, `summary` and
`status` fields, and its `invalidAttributes` map. -/
structure SailsPayload where
  errors : Bool
  invalidAttributes : List (String × List AttrError)
  error : Bool
  model : Bool
  summary : Bool
  status : Bool
  deriving DecidableEq, Repr

/-- `SailsBase.formatError(error)`: maps each property of the payload's
`invalidAttributes` to the list of its error messages. -/
def formatError (p : SailsPayload) : List (String × List String) :=
  p.invalidAttributes.map fun e => (e.1, e.2.map (·.message))

/-- `SailsBase.isErrorObject(data)`: true exactly for a truthy object whose
`error`, `model`, `summary` and `status` fields are all truthy. -/
def isErrorObject (data : Option SailsPayload) : Bool :=
  match data with
  | none => false
  | some p => p.error && p.model && p.summary && p.status

/-- The parse of `jqXHR.responseText` performed by `ajaxError`: a JSON
object, the raw response text itself when `JSON.parse` threw, or a falsy
parse result (such as the JSON literal `null`). -/
inductive ParsedBody
  | obj (p : SailsPayload)
  | text (s : String)
  | nullish
  deriving DecidableEq, Repr

/-- What `SailsBase.ajaxError` returns: the host's validation-error type
built from the formatted `invalidAttributes`, a generic `new Error(data)`,
or the error already computed by the superclass. -/
inductive AjaxErrorResult
  | invalidError (attrs : List (String × List String))
  | genericError
  | originalError
  deriving DecidableEq, Repr

/-- `SailsBase.ajaxError(jqXHR)`: a body whose `errors` field is truthy
gives `new InvalidError(this.formatError(data))`; any other truthy body
gives a generic `new Error(data)`; a falsy body falls back to the error
computed by the superclass. -/
def ajaxError : ParsedBody → AjaxErrorResult
  | .obj p => if p.errors then .invalidError (formatError p) else .genericError
  | .text s => if s ≠ "" then .genericError else .originalError
  | .nullish => .originalError

/-- Outcome of the success handler installed by `SailsBase.ajax` on the
transport promise: resolve with the response, reject with an
`InvalidError`, or reject with the raw response object. -/
inductive AjaxOutcome
  | resolved (response : Option SailsPayload)
  | rejectedInvalid (attrs : List (String × List String))
  | rejectedResponse (p : SailsPayload)
  deriving DecidableEq, Repr

/-- The success handler of `SailsBase.ajax`: a response recognised by
`isErrorObject` is rejected — wrapped in
`new InvalidError(this.formatError(response))` when its `errors` field is
truthy, rejected as the raw response otherwise; any other response is
passed through as the resolution value. -/
def ajaxResponseCheck (response : Option SailsPayload) : AjaxOutcome :=
  match response with
  | some p =>
      if isErrorObject (some p) then
        if p.errors then .rejectedInvalid (formatError p)
        else .rejectedResponse p
      else .resolved (some p)
  | none => .resolved none

/-- C6 counterexample: a payload with truthy `error`, `model`, `summary`
and `status` fields but no `errors` field matches the claim's "known Sails
error shape", yet neither `ajaxError` nor the `ajax` success handler wraps
it into the validation-error type: `ajaxError` produces a generic `Error`
and `ajax` rejects with the raw payload. -/
theorem C6_counterexample :
    ajaxError (.obj ⟨false, [], true, true, true, true⟩) = .genericError ∧
    (∀ attrs, ajaxError (.obj ⟨false, [], true, true, true, true⟩) ≠
      .invalidError attrs) ∧
    ajaxResponseCheck (some ⟨false, [], true, true, true, true⟩) =
      .rejectedResponse ⟨false, [], true, true, true, true⟩ ∧
    (∀ attrs, ajaxResponseCheck (some ⟨false, [], true, true, true, true⟩) ≠
      .rejectedInvalid attrs) := by
  refine ⟨rfl, ?_, rfl, ?_⟩ <;> intro attrs <;> simp [ajaxError,
    ajaxResponseCheck, isErrorObject]

/-- C6 amended: a failed request is wrapped into the host's
validation-error type (`InvalidError` built from the formatted
`invalidAttributes`) exactly when its payload carries a truthy `errors`
field. A payload matching `isErrorObject` (truthy `error`, `model`,
`summary`, `status`) without `errors` is rejected as the raw payload by
the `ajax` success handler and becomes a generic `Error` in `ajaxError`;
any other non-empty payload is rethrown as a generic `Error`; an empty
payload yields the framework's original error. -/
theorem C6_error_wrapping (p : SailsPayload) (s : String) :
    (p.errors = true → ajaxError (.obj p) = .invalidError (formatError p)) ∧
    (p.errors = false → ajaxError (.obj p) = .genericError) ∧
    (s ≠ "" → ajaxError (.text s) = .genericError) ∧
    ajaxError (.text "") = .originalError ∧
    ajaxError .nullish = .originalError ∧
    (isErrorObject (some p) = true → p.errors = true →
      ajaxResponseCheck (some p) = .rejectedInvalid (formatError p)) ∧
    (isErrorObject (some p) = true → p.errors = false →
      ajaxResponseCheck (some p) = .rejectedResponse p) ∧
    (isErrorObject (some p) = false →
      ajaxResponseCheck (some p) = .resolved (some p)) := by
  refine ⟨?_, ?_, ?_, rfl, rfl, ?_, ?_, ?_⟩ <;> intro h
  · simp [ajaxError, h]
  · simp [ajaxError, h]
  · simp [ajaxError, h]
  · intro he; simp [ajaxResponseCheck, h, he]
  · intro he; simp [ajaxResponseCheck, h, he]
  · simp [ajaxResponseCheck, h]

theorem C6_witness :
    ajaxError (.obj ⟨true, [("name", [⟨"required"⟩])], true, true, true, true⟩)
      = .invalidError [("name", ["required"])] ∧
    ajaxError (.obj ⟨false, [], false, false, false, false⟩) = .genericError ∧
    ajaxError (.text "oops") = .genericError ∧
    ajaxResponseCheck
      (some ⟨true, [("name", [⟨"required"⟩])], true, true, true, true⟩) =
      .rejectedInvalid [("name", ["required"])] ∧
    ajaxResponseCheck (some ⟨false, [], false, false, false, false⟩) =
      .resolved (some ⟨false, [], false, false, false, false⟩) :=
  ⟨(C6_error_wrapping
      ⟨true, [("name", [⟨"required"⟩])], true, true, true, true⟩ "oops").1 rfl,
   (C6_error_wrapping ⟨false, [], false, false, false, false⟩ "oops").2.1 rfl,
   (C6_error_wrapping ⟨false, [], false, false, false, false⟩ "oops").2.2.1
      (by decide),
   (C6_error_wrapping
      ⟨true, [("name", [⟨"required"⟩])], true, true, true, true⟩
      "oops").2.2.2.2.2.1 rfl rfl,
   (C6_error_wrapping ⟨false, [], false, false, false, false⟩
      "oops").2.2.2.2.2.2.2 rfl⟩

/-! ## Ember's `camelize` (used for subscription keys and socket event
names) -/

/-- The separator characters collapsed by Ember's `camelize` regexp
`(\-|\_|\.|\s)+(.)?`. -/
def isCamelSep (c : Char) : Bool :=
  c = '-' || c = '_' || c = '.' || c = ' ' || c = '\t' || c = '\n' || c = '\r'

/-- First pass of Ember's `camelize`: drop separator runs and uppercase the
character following each run. -/
def camelizeCore : List Char → Bool → List Char
  | [], _ => []
  | c :: rest, up =>
    if isCamelSep c then camelizeCore rest true
    else if up then c.toUpper :: camelizeCore rest false
    else c :: camelizeCore rest false

/-- Second pass of Ember's `camelize` (regexp `(^|\/)([A-Z])`): lowercase
the character at the start of the string and after each '/'. -/
def decapitalizeStarts : List Char → Bool → List Char
  | [], _ => []
  | c :: rest, atStart =>
    if atStart then c.toLower :: decapitalizeStarts rest (c = '/')
    else c :: decapitalizeStarts rest (c = '/')

/-- `camelize` from `@ember/string`, as used by `pathForType`,
`_scheduleSubscribe`, `_subscribeScheduled`, `_listenToSocket` and
`_handleSocketRecordCreated`. -/
def camelize (s : String) : String :=
  ⟨decapitalizeStarts (camelizeCore s.data false) true⟩

/-! ## Subscription batching (`_scheduleSubscribe` / `_subscribeScheduled`
in `addon/adapters/sails-socket.js`)

JS objects used as maps are embedded as insertion-ordered association
lists: property read, property write (overwriting in place) and
`Object.keys` (each key once, in insertion order). -/

/-- JS object property read. -/
def objGet {α : Type} : List (String × α) → String → Option α
  | [], _ => none
  | e :: rest, k => if e.1 = k then some e.2 else objGet rest k

/-- JS object property write: overwrite in place, or append a new key. -/
def objSet {α : Type} : List (String × α) → String → α → List (String × α)
  | [], k, v => [(k, v)]
  | e :: rest, k, v => if e.1 = k then (k, v) :: rest else e :: objSet rest k v

/-- JS `Object.keys`: each key exactly once, in insertion order. -/
def objKeys {α : Type} (o : List (String × α)) : List String := o.map (·.1)

/-- A record id as received by `_scheduleSubscribe`: Ember record ids are
strings or (nonnegative) numbers; the handler normalises either with
`id = '' + id`. -/
inductive JsId
  | str (s : String)
  | num (n : Nat)
  deriving DecidableEq, Repr

/-- The string representation `'' + id`. -/
def JsId.toStr : JsId → String
  | .str s => s
  | .num n => toString n

/-- JS truthiness of an id (the `if (id && ...)` guard): the empty string
and 0 are falsy. -/
def JsId.truthy : JsId → Bool
  | .str s => s ≠ ""
  | .num n => n ≠ 0

/-- `SailsSocketAdapter.shouldSubscribe(type, recordJson)`: the default
implementation subscribes to every record. -/
def shouldSubscribe (_modelName : String) (_id : JsId) : Bool := true

/-- The state of a `SailsSocketAdapter` relevant to subscription batching:
the `_scheduledSubscriptions` map (camelized model key → id map, `null`
when nothing is pending), whether a `_subscribeScheduled` debounce timer
is armed, and — as instrumentation — the subscription payloads already
sent over the socket. -/
structure SubscriptionState where
  scheduledSubscriptions : Option (List (String × List (String × Nat)))
  debouncePending : Bool
  sentRequests : List (List (String × List String))
  deriving DecidableEq, Repr

/-- `SailsSocketAdapter._scheduleSubscribe(type, id)`: for a truthy id that
`shouldSubscribe` accepts, materialise `_scheduledSubscriptions` and its
per-model sub-object (keyed by `camelize(type.modelName)`), normalise the
id to a string, and unless the value already stored under that id is
truthy (ids are stored as the falsy 0, so a stored id does not block the
branch), store 0 under the id and (re)arm the 50 ms debounce of
`_subscribeScheduled`. -/
def scheduleSubscribe (s : SubscriptionState) (modelName : String)
    (id : JsId) : SubscriptionState :=
  if id.truthy && shouldSubscribe modelName id then
    let subs := s.scheduledSubscriptions.getD []
    let key := camelize modelName
    let subs1 := if objGet subs key = none then objSet subs key [] else subs
    let sub := (objGet subs1 key).getD []
    let idS := id.toStr
    if (objGet sub idS).getD 0 = 0 then
      { s with
          scheduledSubscriptions := some (objSet subs1 key (objSet sub idS 0)),
          debouncePending := true }
    else { s with scheduledSubscriptions := some subs1 }
  else s

/-- `SailsSocketAdapter._subscribeScheduled()`, run when the debounce timer
fires: when subscriptions are pending, take and clear the pending map and
build the payload mapping each camelized model key to `Object.keys` of its
id map — each id exactly once — and, the subscribe endpoint and method
being configured (their defaults `'/socket/subscribe'` and `'POST'`), send
the payload as one request over the socket. (`checkCSRF` leaves the
payload untouched for the default `useCSRF = false`.) -/
def subscribeScheduled (s : SubscriptionState) : SubscriptionState :=
  match s.scheduledSubscriptions with
  | none => { s with debouncePending := false }
  | some data =>
      let payload := data.map fun e => (e.1, objKeys e.2)
      { s with
          scheduledSubscriptions := none,
          debouncePending := false,
          sentRequests := s.sentRequests ++ [payload] }

theorem scheduleSubscribe_first (modelName : String) (id : JsId) (v : String)
    (ht : id.truthy = true) (hv : id.toStr = v) :
    scheduleSubscribe ⟨none, false, []⟩ modelName id =
      ⟨some [(camelize modelName, [(v, 0)])], true, []⟩ := by
  simp [scheduleSubscribe, shouldSubscribe, ht, hv, objGet, objSet]

theorem scheduleSubscribe_again (modelName : String) (id : JsId) (v : String)
    (b : Bool) (reqs : List (List (String × List String)))
    (ht : id.truthy = true) (hv : id.toStr = v) :
    scheduleSubscribe ⟨some [(camelize modelName, [(v, 0)])], b, reqs⟩
        modelName id =
      ⟨some [(camelize modelName, [(v, 0)])], true, reqs⟩ := by
  simp [scheduleSubscribe, shouldSubscribe, ht, hv, objGet, objSet]

theorem foldl_scheduleSubscribe_fixed (modelName : String) (v : String)
    (rest : List JsId) (reqs : List (List (String × List String)))
    (hids : ∀ id ∈ rest, JsId.truthy id = true ∧ JsId.toStr id = v) :
    rest.foldl (fun s id => scheduleSubscribe s modelName id)
      ⟨some [(camelize modelName, [(v, 0)])], true, reqs⟩ =
      ⟨some [(camelize modelName, [(v, 0)])], true, reqs⟩ := by
  induction rest with
  | nil => rfl
  | cons a l ih =>
      have ha := hids a (by simp)
      simp only [List.foldl_cons,
        scheduleSubscribe_again modelName a v true reqs ha.1 ha.2]
      exact ih fun id hid => hids id (by simp [hid])

/-- C2: any number N ≥ 1 of `_scheduleSubscribe` calls for the same model
and the same id (in any string/number representation with the same string
form) within one debounce window produce, once the idle timer fires,
exactly one batched subscribe request, whose payload lists that id exactly
once under the camelized model-name key — and a later timer fire sends
nothing further. -/
theorem C2_subscribe_debounce_dedup (modelName : String) (ids : List JsId)
    (v : String) (hne : ids ≠ [])
    (hids : ∀ id ∈ ids, JsId.truthy id = true ∧ JsId.toStr id = v) :
    (subscribeScheduled
      (ids.foldl (fun s id => scheduleSubscribe s modelName id)
        ⟨none, false, []⟩)).sentRequests =
      [[(camelize modelName, [v])]] ∧
    (subscribeScheduled (subscribeScheduled
      (ids.foldl (fun s id => scheduleSubscribe s modelName id)
        ⟨none, false, []⟩))).sentRequests =
      [[(camelize modelName, [v])]] := by
  obtain ⟨id0, rest, rfl⟩ : ∃ id0 rest, ids = id0 :: rest := by
    cases ids with
    | nil => exact absurd rfl hne
    | cons a l => exact ⟨a, l, rfl⟩
  have h0 := hids id0 (by simp)
  have hfold : (id0 :: rest).foldl
      (fun s id => scheduleSubscribe s modelName id) ⟨none, false, []⟩ =
      ⟨some [(camelize modelName, [(v, 0)])], true, []⟩ := by
    simp only [List.foldl_cons,
      scheduleSubscribe_first modelName id0 v h0.1 h0.2]
    exact foldl_scheduleSubscribe_fixed modelName v rest []
      fun id hid => hids id (by simp [hid])
  rw [hfold]
  exact ⟨rfl, rfl⟩

theorem C2_witness :
    ([JsId.num 42, JsId.str "42", JsId.num 42] ≠ []) ∧
    (subscribeScheduled
      (([JsId.num 42, JsId.str "42", JsId.num 42]).foldl
        (fun s id => scheduleSubscribe s "blog-post" id)
        ⟨none, false, []⟩)).sentRequests =
      [[(camelize "blog-post", ["42"])]] :=
  ⟨by decide,
    (C2_subscribe_debounce_dedup "blog-post"
      [JsId.num 42, JsId.str "42", JsId.num 42] "42" (by decide)
      (by decide)).1⟩

/-! ## Inbound socket record messages (`_listenToSocket` and the
`_handleSocketRecord*` handlers in `addon/adapters/sails-socket.js`) -/

/-- JS `String.prototype.toLowerCase` for the ASCII event names involved:
lowercase every character. -/
def jsToLowerCase (s : String) : String := ⟨s.data.map Char.toLower⟩

/-- The raw socket event name `_listenToSocket(model)` listens for:
`camelize(model).toLowerCase()`. -/
def eventNameFor (model : String) : String := jsToLowerCase (camelize model)

/-- A record payload inside a socket message (`message.data`): its `id`
field (possibly absent or empty) and its remaining attributes, which the
adapter passes through untouched. -/
structure RecordPayload where
  id : Option String
  attrs : List (String × String)
  deriving DecidableEq, Repr

/-- An inbound Sails record message: its verb, the record id carried at
`message.id`, and the record at `message.data`. -/
structure SocketMessage where
  verb : String
  id : Option String
  data : RecordPayload
  deriving DecidableEq, Repr

/-- `SailsSocketService._handleSocketMessage(event, message)`: the service
re-triggers a received raw event under the name
`event + '.' + message.verb` (just `event` when the verb is falsy). -/
def triggeredEventName (event : String) (m : SocketMessage) : String :=
  if m.verb ≠ "" then event ++ "." ++ m.verb else event

/-- A record loaded in the embedded store: its id, its attributes, and its
`dirtyType` (undefined for a clean record without uncommitted local
modifications). -/
structure StoreRecord where
  id : String
  attrs : List (String × String)
  dirtyType : Option String
  deriving DecidableEq, Repr

/-- The records loaded in the store. -/
abbrev Store := List StoreRecord

/-- `store.peekRecord(modelName, id)` over the embedded store: the loaded
record with the given id, if any (`null` when the message carries no
id). -/
def peekRecord (st : Store) (id : Option String) : Option StoreRecord :=
  match id with
  | none => none
  | some i => st.find? fun r => r.id = i

/-- Store mutations the socket record handlers invoke: a
`store.pushPayload` of a record for a model, or a `record.unloadRecord()`
of the record with the given id. -/
inductive StoreOp
  | pushed (modelName : String) (record : RecordPayload)
  | unloaded (id : String)
  deriving DecidableEq, Repr

/-- The record a created/updated handler pushes: `message.data`, given
`message.id` as its id when its own id is falsy and `message.id` is
truthy (`if (!record.id && message.id) record.id = message.id`). -/
def patchedRecord (m : SocketMessage) : RecordPayload :=
  if !(strTruthy m.data.id) && strTruthy m.id then { m.data with id := m.id }
  else m.data

/-- Modelled from the spec: the effect on the store of the host
framework's `store.pushPayload` (Ember Data itself, outside this
repository), which the spec describes as the push store mutation — the
record payload is loaded into the store, updating the record with the same
id or inserting a new clean one; a payload without a truthy id loads
nothing. -/
def pushIntoStore (st : Store) (r : RecordPayload) : Store :=
  match r.id with
  | none => st
  | some i =>
      if i = "" then st
      else if st.any fun q => q.id = i then
        st.map fun q => if q.id = i then ⟨i, r.attrs, none⟩ else q
      else st ++ [⟨i, r.attrs, none⟩]

/-- `SailsSocketAdapter._handleSocketRecordCreated(store, type, message)`:
push the message's record — with `message.id` as fallback id — into the
store via `store.pushPayload`. -/
def handleSocketRecordCreated (st : Store) (modelName : String)
    (m : SocketMessage) : Store × List StoreOp :=
  (pushIntoStore st (patchedRecord m), [.pushed modelName (patchedRecord m)])

/-- `SailsSocketAdapter._handleSocketRecordUpdated`: delegates to
`_handleSocketRecordCreated`. -/
def handleSocketRecordUpdated (st : Store) (modelName : String)
    (m : SocketMessage) : Store × List StoreOp :=
  handleSocketRecordCreated st modelName m

/-- `SailsSocketAdapter._handleSocketRecordDeleted(store, type, message)`:
look up the record at `message.id`; only when it is loaded and its
`dirtyType` is undefined is it unloaded from the store. -/
def handleSocketRecordDeleted (st : Store) (m : SocketMessage) :
    Store × List StoreOp :=
  match peekRecord st m.id with
  | some r =>
      if r.dirtyType = none then
        (st.eraseP fun q => q.id = r.id, [.unloaded r.id])
      else (st, [])
  | none => (st, [])

/-- The handler registry built by `_listenToSocket(model)`: the three
record handlers, keyed by the raw event name suffixed with `'.created'`,
`'.updated'` and `'.destroyed'`. -/
inductive RecordHandler
  | created
  | updated
  | destroyed
  deriving DecidableEq, Repr

/-- The event names `_listenToSocket(model)` binds handlers on. -/
def socketHandlers (modelName : String) : List (String × RecordHandler) :=
  [(eventNameFor modelName ++ "." ++ "created", .created),
   (eventNameFor modelName ++ "." ++ "updated", .updated),
   (eventNameFor modelName ++ "." ++ "destroyed", .destroyed)]

/-- The chain from a raw socket message to the adapter's record handlers
for a model being listened to: the service listens on the raw event
`eventNameFor modelName` only (a raw message under any other name never
reaches it), `_handleSocketMessage` re-triggers it under
`event + '.' + message.verb`, and the handler registered by
`_listenToSocket` under that full name — if any — runs on the store. -/
def dispatchSocketMessage (modelName : String) (st : Store)
    (rawEvent : String) (m : SocketMessage) : Store × List StoreOp :=
  if rawEvent = eventNameFor modelName then
    match objGet (socketHandlers modelName) (triggeredEventName rawEvent m) with
    | some .created => handleSocketRecordCreated st modelName m
    | some .updated => handleSocketRecordUpdated st modelName m
    | some .destroyed => handleSocketRecordDeleted st m
    | none => (st, [])
  else (st, [])

theorem string_append_left_cancel (p a b : String) :
    p ++ a = p ++ b ↔ a = b := by
  constructor
  · intro h
    have hd := congrArg String.data h
    simp only [String.data_append] at hd
    exact String.ext (List.append_cancel_left hd)
  · intro h
    rw [h]

/-- C5 counterexample: the adapter listens on
`camelize(model).toLowerCase()`, not on the model name itself, so for the
model `blog-post` an inbound message named `blog-post.created` (the
claim's `modelName.verb`) reaches no handler and nothing is pushed — the
listened event is `blogpost.created`. -/
theorem C5_counterexample :
    dispatchSocketMessage "blog-post" [] "blog-post"
      ⟨"created", some "7", ⟨none, [("title", "x")]⟩⟩ = ([], []) ∧
    (∀ r, (dispatchSocketMessage "blog-post" [] "blog-post"
      ⟨"created", some "7", ⟨none, [("title", "x")]⟩⟩).2 ≠
        [StoreOp.pushed "blog-post" r]) ∧
    eventNameFor "blog-post" = "blogpost" := by
  have h : dispatchSocketMessage "blog-post" [] "blog-post"
      ⟨"created", some "7", ⟨none, [("title", "x")]⟩⟩ = ([], []) := by decide
  refine ⟨h, ?_, by decide⟩
  intro r
  rw [h]
  simp

/-- C5 amended: for every model being listened to, an inbound socket
message on the listened event `camelize(modelName).toLowerCase()` whose
verb is `created` or `updated` causes the record in the message to be
pushed into the store, using `message.id` as the record id when the record
payload lacks a truthy one; and the verb `destroyed` runs the delete
handler, which unloads the matching store record when it is loaded and has
no uncommitted modifications. -/
theorem C5_socket_message_fanout (modelName : String) (st : Store)
    (m : SocketMessage) :
    ((m.verb = "created" ∨ m.verb = "updated") →
      dispatchSocketMessage modelName st (eventNameFor modelName) m =
        (pushIntoStore st (patchedRecord m),
          [.pushed modelName (patchedRecord m)])) ∧
    (strTruthy m.data.id = false → strTruthy m.id = true →
      (patchedRecord m).id = m.id) ∧
    (m.verb = "destroyed" →
      dispatchSocketMessage modelName st (eventNameFor modelName) m =
        handleSocketRecordDeleted st m) ∧
    (∀ r, m.verb = "destroyed" → peekRecord st m.id = some r →
      r.dirtyType = none →
      dispatchSocketMessage modelName st (eventNameFor modelName) m =
        (st.eraseP fun q => q.id = r.id, [.unloaded r.id])) := by
  refine ⟨?_, ?_, ?_, ?_⟩
  · rintro (hv | hv) <;>
      simp [dispatchSocketMessage, triggeredEventName, hv, socketHandlers,
        objGet, string_append_left_cancel, handleSocketRecordUpdated,
        handleSocketRecordCreated]
  · intro h1 h2
    simp [patchedRecord, h1, h2]
  · intro hv
    simp [dispatchSocketMessage, triggeredEventName, hv, socketHandlers,
      objGet, string_append_left_cancel]
  · intro r hv hp hd
    simp [dispatchSocketMessage, triggeredEventName, hv, socketHandlers,
      objGet, string_append_left_cancel, handleSocketRecordDeleted, hp, hd]

theorem C5_witness :
    dispatchSocketMessage "user" [] (eventNameFor "user")
      ⟨"created", some "7", ⟨none, [("name", "a")]⟩⟩ =
      (pushIntoStore []
          (patchedRecord ⟨"created", some "7", ⟨none, [("name", "a")]⟩⟩),
        [.pushed "user"
          (patchedRecord ⟨"created", some "7", ⟨none, [("name", "a")]⟩⟩)]) ∧
    (patchedRecord ⟨"created", some "7", ⟨none, [("name", "a")]⟩⟩).id =
      some "7" ∧
    dispatchSocketMessage "user" [⟨"7", [], none⟩] (eventNameFor "user")
      ⟨"destroyed", some "7", ⟨none, []⟩⟩ =
      ([⟨"7", [], none⟩].eraseP fun q => q.id = "7", [.unloaded "7"]) :=
  ⟨(C5_socket_message_fanout "user" []
      ⟨"created", some "7", ⟨none, [("name", "a")]⟩⟩).1 (Or.inl rfl),
   (C5_socket_message_fanout "user" []
      ⟨"created", some "7", ⟨none, [("name", "a")]⟩⟩).2.1 rfl rfl,
   (C5_socket_message_fanout "user" [⟨"7", [], none⟩]
      ⟨"destroyed", some "7", ⟨none, []⟩⟩).2.2.2 ⟨"7", [], none⟩ rfl
      (by decide) rfl⟩

/-- C10: an inbound destroyed message for a record absent from the store,
or for one with local uncommitted modifications (a defined `dirtyType`),
leaves the store unchanged and unloads nothing; only a clean, loaded
record is unloaded by `_handleSocketRecordDeleted`. -/
theorem C10_destroy_frame_effect (st : Store) (m : SocketMessage) :
    (peekRecord st m.id = none → handleSocketRecordDeleted st m = (st, [])) ∧
    (∀ r d, peekRecord st m.id = some r → r.dirtyType = some d →
      handleSocketRecordDeleted st m = (st, [])) ∧
    (∀ r, peekRecord st m.id = some r → r.dirtyType = none →
      handleSocketRecordDeleted st m =
        (st.eraseP fun q => q.id = r.id, [.unloaded r.id])) := by
  refine ⟨?_, ?_, ?_⟩
  · intro h
    simp [handleSocketRecordDeleted, h]
  · intro r d hp hd
    simp [handleSocketRecordDeleted, hp, hd]
  · intro r hp hd
    simp [handleSocketRecordDeleted, hp, hd]

theorem C10_witness :
    handleSocketRecordDeleted
        [⟨"1", [], none⟩, ⟨"2", [], some "updated"⟩]
        ⟨"destroyed", some "9", ⟨none, []⟩⟩ =
      ([⟨"1", [], none⟩, ⟨"2", [], some "updated"⟩], []) ∧
    handleSocketRecordDeleted
        [⟨"1", [], none⟩, ⟨"2", [], some "updated"⟩]
        ⟨"destroyed", some "2", ⟨none, []⟩⟩ =
      ([⟨"1", [], none⟩, ⟨"2", [], some "updated"⟩], []) ∧
    handleSocketRecordDeleted
        [⟨"1", [], none⟩, ⟨"2", [], some "updated"⟩]
        ⟨"destroyed", some "1", ⟨none, []⟩⟩ =
      ([⟨"1", [], none⟩, ⟨"2", [], some "updated"⟩].eraseP
          fun q => q.id = "1",
        [.unloaded "1"]) :=
  ⟨(C10_destroy_frame_effect
      [⟨"1", [], none⟩, ⟨"2", [], some "updated"⟩]
      ⟨"destroyed", some "9", ⟨none, []⟩⟩).1 (by decide),
   (C10_destroy_frame_effect
      [⟨"1", [], none⟩, ⟨"2", [], some "updated"⟩]
      ⟨"destroyed", some "2", ⟨none, []⟩⟩).2.1 ⟨"2", [], some "updated"⟩
      "updated" (by decide) rfl,
   (C10_destroy_frame_effect
      [⟨"1", [], none⟩, ⟨"2", [], some "updated"⟩]
      ⟨"destroyed", some "1", ⟨none, []⟩⟩).2.2 ⟨"1", [], none⟩
      (by decide) rfl⟩

/-! ## Socket connection lifecycle (`SailsSocketService` in
`addon/services/sails-socket.js`)

The service's handlers are embedded as transitions of a state machine:
`_handleSocketReady` (scheduled by `_load`, which `_connectedSocket` calls
only on an uninitialized service), the raw socket's connect/disconnect
events (whose handlers `_handleSocketConnect` / `_handleSocketDisconnect`
only fire once `_handleSocketReady` or `_reconnect` has attached them to
the raw socket), `_reconnect` (called by `_connectedSocket` only on an
initialized, disconnected service) and `listenFor`. -/

/-- The lifecycle events the service `trigger`s. -/
inductive SockEvent
  | didInitialize
  | didConnect
  | didDisconnect
  deriving DecidableEq, Repr

/-- The mutable state of a `SailsSocketService` relevant to the connection
lifecycle: the `isInitialized` and `isConnected` flags, the `_listeners`
registry (event name → `isListening`), whether connect/disconnect
handlers are currently attached to the raw socket, and — as
instrumentation — the trace of lifecycle events triggered so far (oldest
first). -/
structure SocketServiceState where
  isInitialized : Bool
  isConnected : Bool
  listeners : List (String × Bool)
  rawHandlersBound : Bool
  trace : List SockEvent
  deriving DecidableEq, Repr

/-- The state set up by the service constructor: not initialized, not
connected, no listeners, nothing triggered. -/
def initialSocketState : SocketServiceState := ⟨false, false, [], false, []⟩

/-- `SailsSocketService._bindListeners()`: attach every registered
listener that is not yet listening; afterwards every registered listener
is listening. -/
def bindListeners (l : List (String × Bool)) : List (String × Bool) :=
  l.map fun e => (e.1, true)

/-- `SailsSocketService._unbindListeners()`: detach every attached
listener (keeping it registered). -/
def unbindListeners (l : List (String × Bool)) : List (String × Bool) :=
  l.map fun e => (e.1, false)

/-- The handler invocations that drive the lifecycle. -/
inductive SocketAction
  | socketReady
  | socketConnect
  | socketDisconnect
  | reconnect
  | listenFor (event : String) (listen : Bool)
  deriving DecidableEq, Repr

/-- One lifecycle transition; `none` when the corresponding handler cannot
run in the given state. `_handleSocketReady` sets `isInitialized`,
triggers `didInitialize`, creates the sails socket and attaches the raw
connect/disconnect handlers; `_handleSocketConnect` runs
`_bindListeners`, sets `isConnected` and triggers `didConnect`;
`_handleSocketDisconnect` clears `isConnected`, triggers `didDisconnect`
and runs `_unbindListeners`; `_reconnect` re-attaches the raw handlers to
the replacement raw socket; `listenFor(event, true)` registers a listener
(attached immediately only when connected) and `listenFor(event, false)`
deletes it. -/
def socketStep (s : SocketServiceState) :
    SocketAction → Option SocketServiceState
  | .socketReady =>
      if s.isInitialized then none
      else some { s with
          isInitialized := true,
          rawHandlersBound := true,
          trace := s.trace ++ [.didInitialize] }
  | .socketConnect =>
      if s.rawHandlersBound then
        some { s with
            listeners := bindListeners s.listeners,
            isConnected := true,
            trace := s.trace ++ [.didConnect] }
      else none
  | .socketDisconnect =>
      if s.rawHandlersBound then
        some { s with
            isConnected := false,
            trace := s.trace ++ [.didDisconnect],
            listeners := unbindListeners s.listeners }
      else none
  | .reconnect =>
      if s.isInitialized && !s.isConnected then
        some { s with rawHandlersBound := true }
      else none
  | .listenFor event listen =>
      if listen then
        if objGet s.listeners event = none then
          some { s with listeners := objSet s.listeners event s.isConnected }
        else some s
      else
        some { s with listeners := s.listeners.filter fun e => e.1 ≠ event }

/-- The states a `SailsSocketService` can be in: everything reachable from
the constructor state by lifecycle transitions. -/
inductive SocketReachable : SocketServiceState → Prop
  | init : SocketReachable initialSocketState
  | step (s : SocketServiceState) (a : SocketAction) (t : SocketServiceState) :
      SocketReachable s → socketStep s a = some t → SocketReachable t

/-- Scans a trace left to right and checks that every `didConnect` is
preceded by an earlier `didInitialize`; `seen` records whether a
`didInitialize` occurred before the scanned part. -/
def connectPreceded : List SockEvent → Bool → Bool
  | [], _ => true
  | e :: rest, seen =>
      (if e = .didConnect then seen else true) &&
        connectPreceded rest (seen || e == .didInitialize)

theorem connectPreceded_append (t : List SockEvent) (e : SockEvent)
    (seen : Bool) :
    connectPreceded (t ++ [e]) seen =
      (connectPreceded t seen &&
        (if e = .didConnect then seen || t.any (· == .didInitialize)
         else true)) := by
  induction t generalizing seen with
  | nil => cases e <;> simp [connectPreceded]
  | cons x xs ih =>
      simp only [List.cons_append, connectPreceded, List.any_cons]
      cases e <;> simp [ih, Bool.and_assoc, Bool.or_assoc]

/-- The lifecycle invariant: a connected service is initialized, raw
handlers are only attached on an initialized service, an initialized
service has triggered `didInitialize`, and every `didConnect` in the
trace is preceded by a `didInitialize`. -/
def socketInv (s : SocketServiceState) : Prop :=
  (s.isConnected = true → s.isInitialized = true) ∧
  (s.rawHandlersBound = true → s.isInitialized = true) ∧
  (s.isInitialized = true → s.trace.any (· == .didInitialize) = true) ∧
  connectPreceded s.trace false = true

theorem socketStep_inv {s t : SocketServiceState} {a : SocketAction}
    (hinv : socketInv s) (hstep : socketStep s a = some t) : socketInv t := by
  obtain ⟨h1, h2, h3, h4⟩ := hinv
  cases a with
  | socketReady =>
      cases hi : s.isInitialized with
      | true => simp [socketStep, hi] at hstep
      | false =>
          simp only [socketStep, hi, Bool.false_eq_true, if_false,
            Option.some.injEq] at hstep
          subst hstep
          refine ⟨fun _ => rfl, fun _ => rfl, fun _ => by simp, ?_⟩
          rw [connectPreceded_append]
          simp [h4]
  | socketConnect =>
      cases hb : s.rawHandlersBound with
      | false => simp [socketStep, hb] at hstep
      | true =>
          simp only [socketStep, hb, if_true, Option.some.injEq] at hstep
          subst hstep
          have hinit := h2 hb
          refine ⟨fun _ => hinit, fun _ => hinit,
            fun _ => by simp [h3 hinit], ?_⟩
          rw [connectPreceded_append]
          simp [h4, h3 hinit]
  | socketDisconnect =>
      cases hb : s.rawHandlersBound with
      | false => simp [socketStep, hb] at hstep
      | true =>
          simp only [socketStep, hb, if_true, Option.some.injEq] at hstep
          subst hstep
          refine ⟨fun h => by simp at h, fun _ => h2 hb,
            fun hi => by simp [h3 hi], ?_⟩
          rw [connectPreceded_append]
          simp [h4]
  | reconnect =>
      cases hg : (s.isInitialized && !s.isConnected) with
      | false => simp [socketStep, hg] at hstep
      | true =>
          simp only [socketStep, hg, if_true, Option.some.injEq] at hstep
          subst hstep
          rw [Bool.and_eq_true] at hg
          exact ⟨fun hc => h1 hc, fun _ => hg.1, h3, h4⟩
  | listenFor event listen =>
      cases listen with
      | true =>
          by_cases hreg : objGet s.listeners event = none
          · simp only [socketStep, if_true, hreg, if_pos rfl,
              Option.some.injEq] at hstep
            subst hstep
            exact ⟨h1, h2, h3, h4⟩
          · simp only [socketStep, if_true, if_neg hreg,
              Option.some.injEq] at hstep
            subst hstep
            exact ⟨h1, h2, h3, h4⟩
      | false =>
          simp only [socketStep, Bool.false_eq_true, if_false,
            Option.some.injEq] at hstep
          subst hstep
          exact ⟨h1, h2, h3, h4⟩

theorem socketInv_of_reachable {s : SocketServiceState}
    (h : SocketReachable s) : socketInv s := by
  induction h with
  | init => exact ⟨by simp [initialSocketState], by simp [initialSocketState],
      by simp [initialSocketState], by simp [initialSocketState, connectPreceded]⟩
  | step s a t _ hstep ih => exact socketStep_inv ih hstep

/-- C7: in every reachable state of the socket service, `isConnected` is
never true while `isInitialized` is false; in the trace of triggered
lifecycle events every `didConnect` is preceded by a `didInitialize`
(`didConnect` is never fired before `didInitialize`); whenever the connect
handler runs — in particular after a reconnect replaced the raw socket —
all previously registered event listeners are (re-)attached, none being
added or lost; and the service starts not initialized, not connected,
with nothing triggered, until its first use drives the transitions. -/
theorem C7_socket_lifecycle (s : SocketServiceState)
    (h : SocketReachable s) :
    (s.isConnected = true → s.isInitialized = true) ∧
    connectPreceded s.trace false = true ∧
    (∀ t, socketStep s .socketConnect = some t →
      (∀ e ∈ t.listeners, e.2 = true) ∧
        objKeys t.listeners = objKeys s.listeners) ∧
    initialSocketState.isInitialized = false ∧
    initialSocketState.isConnected = false ∧
    initialSocketState.trace = [] := by
  obtain ⟨h1, _, _, h4⟩ := socketInv_of_reachable h
  refine ⟨h1, h4, ?_, rfl, rfl, rfl⟩
  intro t hstep
  cases hb : s.rawHandlersBound with
  | false => simp [socketStep, hb] at hstep
  | true =>
      simp only [socketStep, hb, if_true, Option.some.injEq] at hstep
      subst hstep
      constructor
      · intro e he
        simp only [bindListeners, List.mem_map] at he
        obtain ⟨q, _, rfl⟩ := he
        rfl
      · simp [objKeys, bindListeners]

theorem C7_witness :
    (∀ e ∈ (bindListeners [("user", false)]), e.2 = true) ∧
    connectPreceded [SockEvent.didInitialize, SockEvent.didConnect] false
      = true :=
  have hreach : SocketReachable
      ⟨true, true, [("user", true)], true, [.didInitialize, .didConnect]⟩ :=
    SocketReachable.step
      ⟨true, false, [("user", false)], true, [.didInitialize]⟩
      .socketConnect
      ⟨true, true, [("user", true)], true, [.didInitialize, .didConnect]⟩
      (SocketReachable.step
        ⟨true, false, [], true, [.didInitialize]⟩
        (.listenFor "user" true)
        ⟨true, false, [("user", false)], true, [.didInitialize]⟩
        (SocketReachable.step initialSocketState .socketReady
          ⟨true, false, [], true, [.didInitialize]⟩
          SocketReachable.init (by decide))
        (by decide))
      (by decide)
  ⟨fun e he => by
      simp only [bindListeners, List.mem_map] at he
      obtain ⟨q, _, rfl⟩ := he
      rfl,
   (C7_socket_lifecycle
      ⟨true, true, [("user", true)], true, [.didInitialize, .didConnect]⟩
      hreach).2.1⟩

end EmberDataSails
